import Mathlib

/-!
Shallow embedding of the HTM network-API region adapters
`htmresearch/regions/TMRegion.py` and `htmresearch/regions/L2Column.py`.

Dense Real32 arrays are modelled as `List Int` (the adapter only ever writes
0/1 values and compares entries with 0 and 1; integer entries suffice for
every behaviour the adapter exhibits on them).  Real32-typed configuration
fields that are merely stored are modelled as `Rat`.

The temporal-memory backend (`htmresearch.algorithms`, outside the adapter)
is an external collaborator.  Its per-call behaviour is modelled as an
abstract record of transition functions (`BackendOps`) acting on an abstract
backend snapshot (`Backend`); the adapter never inspects the backend beyond
the queries `numberOfCells`, `getActiveCells`, `getPredictiveCells` and the
variant test on the arity of its compute entry point (`isExtended`).
-/

/-- `numpy.zeros(n)`: a fresh all-zero dense vector. -/
def zerosVec (n : Nat) : List Int := List.replicate n 0

/-- `v[idxs] = 1`: write 1 at every listed index, keep all other entries. -/
def setOnes (v : List Int) (idxs : List Nat) : List Int :=
  (List.range v.length).map (fun i => if i ∈ idxs then 1 else v.getD i 0)

/-- `numpy.where(v == 1)[0]`: the indices whose entry equals 1, ascending. -/
def whereEq1 (v : List Int) : List Nat :=
  (List.range v.length).filter (fun i => v.getD i 0 == 1)

/-- numpy elementwise product `a * b` of two dense vectors. -/
def mulVec (a b : List Int) : List Int := List.zipWith (fun x y => x * y) a b

/-- Spec-level elementwise AND of two dense binary vectors. -/
def andVec (a b : List Int) : List Int :=
  List.zipWith (fun x y => if x ≠ 0 ∧ y ≠ 0 then 1 else 0) a b

/-- A dense vector is binary when every entry is 0 or 1. -/
def isBinary (v : List Int) : Prop := ∀ x ∈ v, x = 0 ∨ x = 1

/-- Abstract snapshot of the external temporal-memory backend.
`isExtended` records whether the compute entry point declares more than
three arguments (the capability test `len(args) > 3` in `TMRegion.compute`);
`activeCells` / `predictiveCells` are what `getActiveCells()` /
`getPredictiveCells()` report in this snapshot; `internal` stands for the
backend-internal learning state the adapter never reads. -/
structure Backend where
  isExtended : Bool
  numberOfCells : Nat
  activeCells : List Nat
  predictiveCells : List Nat
  internal : Nat
deriving DecidableEq

/-- The external backend implementation: the transition functions the adapter
invokes but does not own (`self._tm.compute(...)` in its two calling
conventions, and `self._tm.reset()`). -/
structure BackendOps where
  computeExt : Backend → List Nat → Option (List Nat) → Option (List Nat) → Bool → Bool → Backend
  computeBasic : Backend → List Nat → Bool → Backend
  reset : Backend → Backend

/-- Adapter state: the attributes `TMRegion.__init__` assigns, plus the
backend slot `_tm` and the two derived cross-step vectors that
`TMRegion.initialize` allocates (empty before initialize, mirroring the
attributes not existing yet). -/
structure TMRegion where
  columnCount : Nat
  cellsPerColumn : Nat
  activationThreshold : Nat
  initialPermanence : Rat
  connectedPermanence : Rat
  minThreshold : Nat
  maxNewSynapseCount : Nat
  permanenceIncrement : Rat
  permanenceDecrement : Rat
  predictedSegmentDecrement : Rat
  seed : Nat
  learnOnOneCell : Bool
  learningMode : Bool
  inferenceMode : Bool
  temporalImp : String
  formInternalConnections : Bool
  defaultOutputType : String
  tm : Option Backend
  activeState : List Int
  previouslyPredictedCells : List Int
deriving DecidableEq

/-- `TMRegion.__init__` with its default arguments. -/
def TMRegion.mkDefault : TMRegion :=
  { columnCount := 2048
    cellsPerColumn := 32
    activationThreshold := 13
    initialPermanence := 0.21
    connectedPermanence := 0.50
    minThreshold := 10
    maxNewSynapseCount := 20
    permanenceIncrement := 0.10
    permanenceDecrement := 0.10
    predictedSegmentDecrement := 0
    seed := 42
    learnOnOneCell := true
    learningMode := true
    inferenceMode := true
    temporalImp := "tm"
    formInternalConnections := true
    defaultOutputType := "active"
    tm := none
    activeState := []
    previouslyPredictedCells := [] }

/-- `TMRegion.initialize`: if no backend exists, build one and allocate the
two derived vectors at `numpy.zeros(self._tm.numberOfCells())`; otherwise do
nothing.  The kwargs-superset construction and name filtering in the source
feed `createModel` (`htmresearch.algorithms.temporal_memory_factory`,
outside the adapter); they are absorbed into the abstract `factory`
parameter, which receives the whole region configuration. -/
def TMRegion.initialize (factory : TMRegion → Backend) (r : TMRegion) : TMRegion :=
  match r.tm with
  | some _ => r
  | none =>
    let tm := factory r
    { r with tm := some tm
             activeState := zerosVec tm.numberOfCells
             previouslyPredictedCells := zerosVec tm.numberOfCells }

/-- `TMRegion.reset`: no-op when no backend exists; otherwise invoke the
backend reset and zero `previouslyPredictedCells` in place. -/
def TMRegion.reset (ops : BackendOps) (r : TMRegion) : TMRegion :=
  match r.tm with
  | none => r
  | some tm =>
    { r with tm := some (ops.reset tm)
             previouslyPredictedCells := zerosVec r.previouslyPredictedCells.length }

/-- The named input arrays a single compute step may receive.  A `none`
models the key being absent from the `inputs` dict. -/
structure TMInputs where
  bottomUpIn : List Int
  externalInput : Option (List Int)
  topDownIn : Option (List Int)
  resetIn : Option (List Int)
  sequenceIdIn : Option (List Int)
deriving DecidableEq

/-- The named output arrays a compute step populates. -/
structure TMOutputs where
  bottomUpOut : List Int
  activeCells : List Int
  predictiveCells : List Int
  predictedActiveCells : List Int
deriving DecidableEq

/-- Result of one compute call: the adapter state and output buffers as they
stand when the call returns or raises, and the raised message if any.
Python mutates `self` and `outputs` in place, so mutations made before a
raise survive it; `state` and `outputs` here carry exactly those. -/
structure ComputeResult where
  state : TMRegion
  outputs : TMOutputs
  error : Option String
deriving DecidableEq

/-- Whether this step's `resetIn`, as the source reads it, triggers a reset:
present, of length exactly one (the assert), and nonzero. -/
def resetTriggered (i : TMInputs) : Bool :=
  match i.resetIn with
  | none => false
  | some arr => decide (arr.length = 1) && decide (arr.getD 0 0 ≠ 0)

/-- The same step inputs with the reset flag absent. -/
def stripReset (i : TMInputs) : TMInputs := { i with resetIn := none }

/-- The three selector values `TMRegion.compute` accepts for
`defaultOutputType`. -/
def validOutput (s : String) : Bool :=
  s == "active" || s == "predictive" || s == "predictedActiveCells"

/-- The backend call `TMRegion.compute` makes: convert the dense inputs into
index sets and dispatch on the backend variant (extended signature when the
compute entry point declares more than three arguments, basic otherwise). -/
def backendStep (ops : BackendOps) (r : TMRegion) (tm0 : Backend) (inputs : TMInputs) : Backend :=
  if tm0.isExtended then
    ops.computeExt tm0 (whereEq1 inputs.bottomUpIn)
      (inputs.externalInput.map whereEq1) (inputs.topDownIn.map whereEq1)
      r.formInternalConnections r.learningMode
  else
    ops.computeBasic tm0 (whereEq1 inputs.bottomUpIn) r.learningMode

/-- `self.activeState[:] = 0; self.activeState[self._tm.getActiveCells()] = 1`. -/
def newActiveState (r : TMRegion) (tm1 : Backend) : List Int :=
  setOnes (zerosVec r.activeState.length) tm1.activeCells

/-- `self.previouslyPredictedCells[:] = 0;
self.previouslyPredictedCells[self._tm.getPredictiveCells()] = 1`. -/
def newPrevPredicted (r : TMRegion) (tm1 : Backend) : List Int :=
  setOnes (zerosVec r.previouslyPredictedCells.length) tm1.predictiveCells

/-- Adapter state after the in-place mutations of one normal compute step,
before any reset handling. -/
def stepState (ops : BackendOps) (r : TMRegion) (tm0 : Backend) (inputs : TMInputs) : TMRegion :=
  let tm1 := backendStep ops r tm0 inputs
  { r with tm := some tm1
           activeState := newActiveState r tm1
           previouslyPredictedCells := newPrevPredicted r tm1 }

/-- The tail of `TMRegion.compute`: reset handling after all outputs are
written.  `assert len(inputs["resetIn"]) == 1`, then `self.reset()` when the
flag is nonzero. -/
def finishCompute (ops : BackendOps) (r : TMRegion) (outs : TMOutputs) (inputs : TMInputs) : ComputeResult :=
  match inputs.resetIn with
  | none => { state := r, outputs := outs, error := none }
  | some arr =>
    if arr.length = 1 then
      if arr.getD 0 0 ≠ 0 then
        { state := TMRegion.reset ops r, outputs := outs, error := none }
      else
        { state := r, outputs := outs, error := none }
    else
      { state := r, outputs := outs, error := some "AssertionError" }

/-- Body of `TMRegion.compute` once the backend `tm0` is known to exist, in
source order: backend call, active-state refresh, predicted-active product
taken from the still-old `previouslyPredictedCells`, predictive refresh,
output writes, default-output selection (unknown selector raises), then
reset handling. -/
def computeWithTM (ops : BackendOps) (r : TMRegion) (tm0 : Backend)
    (inputs : TMInputs) (outputs : TMOutputs) : ComputeResult :=
  let tm1 := backendStep ops r tm0 inputs
  let activeState := newActiveState r tm1
  let predictedActiveCells := mulVec activeState r.previouslyPredictedCells
  let prevPredicted := newPrevPredicted r tm1
  let r1 := stepState ops r tm0 inputs
  let out1 := { outputs with activeCells := activeState
                             predictiveCells := prevPredicted
                             predictedActiveCells := predictedActiveCells }
  if r.defaultOutputType = "active" then
    finishCompute ops r1 { out1 with bottomUpOut := activeState } inputs
  else if r.defaultOutputType = "predictive" then
    finishCompute ops r1 { out1 with bottomUpOut := prevPredicted } inputs
  else if r.defaultOutputType = "predictedActiveCells" then
    finishCompute ops r1 { out1 with bottomUpOut := predictedActiveCells } inputs
  else
    { state := r1, outputs := out1
      error := some ("Unknown outputType: " ++ r.defaultOutputType) }

/-- `TMRegion.compute`.  Calling it before `initialize` dereferences the
absent backend (`self._tm.compute`), which raises immediately. -/
def TMRegion.compute (ops : BackendOps) (r : TMRegion)
    (inputs : TMInputs) (outputs : TMOutputs) : ComputeResult :=
  match r.tm with
  | none => { state := r, outputs := outputs
              error := some "AttributeError: compute called before initialize" }
  | some tm0 => computeWithTM ops r tm0 inputs outputs

/-- A parameter value as the dynamically-typed region API carries it.
Calls are modelled at the dataType each parameter declares in the region
spec (UInt32 as `num`, Real32 as `rat`, Byte as `str`); Python `bool()`
coercion is truthiness of the value. -/
inductive PVal where
  | num (n : Nat)
  | rat (q : Rat)
  | str (s : String)
deriving DecidableEq

def PVal.toBool : PVal → Bool
  | .num n => n != 0
  | .rat q => q != 0
  | .str s => s != ""

def PVal.toNat : PVal → Nat
  | .num n => n
  | .rat _ => 0
  | .str _ => 0

def PVal.toRat : PVal → Rat
  | .num n => n
  | .rat q => q
  | .str _ => 0

def PVal.toStr : PVal → String
  | .num _ => ""
  | .rat _ => ""
  | .str s => s

/-- `TMRegion.setParameter`: the three flag names are coerced with `bool()`;
any other existing attribute (those `__init__` assigns) is set directly;
an unknown name raises.  `TMRegion.__init__` never assigns an `inputWidth`
attribute, so the name `inputWidth` falls through to the unknown branch. -/
def TMRegion.setParameter (r : TMRegion) (name : String) (v : PVal) : Except String TMRegion :=
  if name = "learningMode" then .ok { r with learningMode := v.toBool }
  else if name = "inferenceMode" then .ok { r with inferenceMode := v.toBool }
  else if name = "formInternalConnections" then .ok { r with formInternalConnections := v.toBool }
  else if name = "columnCount" then .ok { r with columnCount := v.toNat }
  else if name = "cellsPerColumn" then .ok { r with cellsPerColumn := v.toNat }
  else if name = "activationThreshold" then .ok { r with activationThreshold := v.toNat }
  else if name = "initialPermanence" then .ok { r with initialPermanence := v.toRat }
  else if name = "connectedPermanence" then .ok { r with connectedPermanence := v.toRat }
  else if name = "minThreshold" then .ok { r with minThreshold := v.toNat }
  else if name = "maxNewSynapseCount" then .ok { r with maxNewSynapseCount := v.toNat }
  else if name = "permanenceIncrement" then .ok { r with permanenceIncrement := v.toRat }
  else if name = "permanenceDecrement" then .ok { r with permanenceDecrement := v.toRat }
  else if name = "predictedSegmentDecrement" then .ok { r with predictedSegmentDecrement := v.toRat }
  else if name = "seed" then .ok { r with seed := v.toNat }
  else if name = "learnOnOneCell" then .ok { r with learnOnOneCell := v.toBool }
  else if name = "temporalImp" then .ok { r with temporalImp := v.toStr }
  else if name = "defaultOutputType" then .ok { r with defaultOutputType := v.toStr }
  else .error ("Unknown parameter: " ++ name)

/-- Reading a UInt32-typed parameter from a TMRegion, as PyRegion getattr
does: `none` models the attribute not existing (AttributeError).  There is
no `inputWidth` attribute on TMRegion to read. -/
def TMRegion.getParamNat (r : TMRegion) (name : String) : Option Nat :=
  if name = "columnCount" then some r.columnCount
  else if name = "cellsPerColumn" then some r.cellsPerColumn
  else if name = "activationThreshold" then some r.activationThreshold
  else if name = "minThreshold" then some r.minThreshold
  else if name = "maxNewSynapseCount" then some r.maxNewSynapseCount
  else if name = "seed" then some r.seed
  else none

/-- Attribute state of `L2Column`: the fields `__init__` assigns, including
a maintained `inputWidth`. -/
structure L2Column where
  columnCount : Nat
  cellsPerColumn : Nat
  inputWidth : Nat
  activationThreshold : Nat
  initialPermanence : Rat
  connectedPermanence : Rat
  minThreshold : Nat
  maxNewSynapseCount : Nat
  permanenceIncrement : Rat
  permanenceDecrement : Rat
  predictedSegmentDecrement : Rat
  seed : Nat
  learningMode : Bool
  inferenceMode : Bool
  defaultOutputType : String
deriving DecidableEq

/-- `L2Column.__init__`: stores the arguments and derives
`inputWidth = columnCount * cellsPerColumn`. -/
def L2Column.init (columnCount cellsPerColumn activationThreshold : Nat)
    (initialPermanence connectedPermanence : Rat)
    (minThreshold maxNewSynapseCount : Nat)
    (permanenceIncrement permanenceDecrement predictedSegmentDecrement : Rat)
    (seed : Nat) (defaultOutputType : String) : L2Column :=
  { columnCount := columnCount
    cellsPerColumn := cellsPerColumn
    inputWidth := columnCount * cellsPerColumn
    activationThreshold := activationThreshold
    initialPermanence := initialPermanence
    connectedPermanence := connectedPermanence
    minThreshold := minThreshold
    maxNewSynapseCount := maxNewSynapseCount
    permanenceIncrement := permanenceIncrement
    permanenceDecrement := permanenceDecrement
    predictedSegmentDecrement := predictedSegmentDecrement
    seed := seed
    learningMode := true
    inferenceMode := true
    defaultOutputType := defaultOutputType }

/-- `L2Column.__init__` with its default arguments. -/
def L2Column.mkDefault : L2Column :=
  L2Column.init 2048 16 13 0.21 0.50 10 20 0.10 0.10 0 42 "active"

/-- The if/elif dispatch of `L2Column.setParameter`: the bool coercion list
is only `learningMode`/`inferenceMode`; any other existing attribute
(`inputWidth` is one here) is set directly; an unknown name raises. -/
def L2Column.setAttr (r : L2Column) (name : String) (v : PVal) : Except String L2Column :=
  if name = "learningMode" then .ok { r with learningMode := v.toBool }
    else if name = "inferenceMode" then .ok { r with inferenceMode := v.toBool }
    else if name = "columnCount" then .ok { r with columnCount := v.toNat }
    else if name = "cellsPerColumn" then .ok { r with cellsPerColumn := v.toNat }
    else if name = "inputWidth" then .ok { r with inputWidth := v.toNat }
    else if name = "activationThreshold" then .ok { r with activationThreshold := v.toNat }
    else if name = "initialPermanence" then .ok { r with initialPermanence := v.toRat }
    else if name = "connectedPermanence" then .ok { r with connectedPermanence := v.toRat }
    else if name = "minThreshold" then .ok { r with minThreshold := v.toNat }
    else if name = "maxNewSynapseCount" then .ok { r with maxNewSynapseCount := v.toNat }
    else if name = "permanenceIncrement" then .ok { r with permanenceIncrement := v.toRat }
    else if name = "permanenceDecrement" then .ok { r with permanenceDecrement := v.toRat }
    else if name = "predictedSegmentDecrement" then .ok { r with predictedSegmentDecrement := v.toRat }
    else if name = "seed" then .ok { r with seed := v.toNat }
    else if name = "defaultOutputType" then .ok { r with defaultOutputType := v.toStr }
    else .error ("Unknown parameter: " ++ name)

/-- `L2Column.setParameter`: the attribute set of `L2Column.setAttr`,
followed unconditionally — after every successful branch, but not after the
raise — by `self.inputWidth = self.columnCount * self.cellsPerColumn`. -/
def L2Column.setParameter (r : L2Column) (name : String) (v : PVal) : Except String L2Column :=
  match r.setAttr name v with
  | .error e => .error e
  | .ok r1 => .ok { r1 with inputWidth := r1.columnCount * r1.cellsPerColumn }

/-- The configuration fields of two adapter states agree (everything except
the backend slot and the two derived vectors). -/
def sameConfig (a b : TMRegion) : Prop :=
  a.columnCount = b.columnCount ∧ a.cellsPerColumn = b.cellsPerColumn ∧
  a.activationThreshold = b.activationThreshold ∧
  a.initialPermanence = b.initialPermanence ∧
  a.connectedPermanence = b.connectedPermanence ∧
  a.minThreshold = b.minThreshold ∧
  a.maxNewSynapseCount = b.maxNewSynapseCount ∧
  a.permanenceIncrement = b.permanenceIncrement ∧
  a.permanenceDecrement = b.permanenceDecrement ∧
  a.predictedSegmentDecrement = b.predictedSegmentDecrement ∧
  a.seed = b.seed ∧ a.learnOnOneCell = b.learnOnOneCell ∧
  a.learningMode = b.learningMode ∧ a.inferenceMode = b.inferenceMode ∧
  a.temporalImp = b.temporalImp ∧
  a.formInternalConnections = b.formInternalConnections ∧
  a.defaultOutputType = b.defaultOutputType

instance (a b : TMRegion) : Decidable (sameConfig a b) := by
  unfold sameConfig
  infer_instance

instance {e a : Type} [DecidableEq e] [DecidableEq a] : DecidableEq (Except e a) := fun x y =>
  match x, y with
  | .error u, .error w => decidable_of_iff (u = w) (by simp)
  | .error _, .ok _ => .isFalse (by simp)
  | .ok _, .error _ => .isFalse (by simp)
  | .ok u, .ok w => decidable_of_iff (u = w) (by simp)

/-- Test fixture: a basic (non-extended) backend snapshot with 8 cells. -/
def testBackend : Backend :=
  { isExtended := false, numberOfCells := 8, activeCells := [], predictiveCells := [], internal := 0 }

/-- Test fixture: a scripted basic backend.  On its first compute it reports
active cells 0 and 3 and predictive cells 1 and 4; on later computes it
reports active cells 1 and 4 and nothing predictive.  Its reset clears both
reported sets (and is idempotent). -/
def scriptOps : BackendOps :=
  { computeBasic := fun tm _ _ =>
      if tm.internal = 0 then
        { tm with internal := 1, activeCells := [0, 3], predictiveCells := [1, 4] }
      else
        { tm with internal := tm.internal + 1, activeCells := [1, 4], predictiveCells := [] }
    computeExt := fun tm _ _ _ _ _ => tm
    reset := fun tm => { tm with activeCells := [], predictiveCells := [] } }

/-- Test fixture: a backend that echoes the active-column set it received
back as its active cells, making the input conversion observable in the
activeCells output. -/
def recOps : BackendOps :=
  { computeBasic := fun tm cols _ => { tm with activeCells := cols }
    computeExt := fun tm cols _ _ _ _ => { tm with activeCells := cols }
    reset := fun tm => tm }

/-- Test fixture: a small initialized region, 4 columns of 2 cells. -/
def rInit : TMRegion :=
  { TMRegion.mkDefault with
      columnCount := 4, cellsPerColumn := 2
      tm := some testBackend
      activeState := zerosVec 8, previouslyPredictedCells := zerosVec 8 }

/-- Test fixture: the same region with an invalid default-output selector. -/
def rBadOut : TMRegion := { rInit with defaultOutputType := "bogus" }

/-- Test fixture: an initialized region with 3 cells, for the echo backend. -/
def rRec : TMRegion :=
  { TMRegion.mkDefault with
      columnCount := 3, cellsPerColumn := 1
      tm := some { isExtended := false, numberOfCells := 3, activeCells := [],
                   predictiveCells := [], internal := 0 }
      activeState := zerosVec 3, previouslyPredictedCells := zerosVec 3 }

/-- Zeroed 8-element output buffers. -/
def oZeros : TMOutputs :=
  { bottomUpOut := zerosVec 8, activeCells := zerosVec 8
    predictiveCells := zerosVec 8, predictedActiveCells := zerosVec 8 }

/-- Zeroed 3-element output buffers. -/
def oZeros3 : TMOutputs :=
  { bottomUpOut := zerosVec 3, activeCells := zerosVec 3
    predictiveCells := zerosVec 3, predictedActiveCells := zerosVec 3 }

/-- A step carrying only a feed-forward vector. -/
def inStep (v : List Int) : TMInputs :=
  { bottomUpIn := v, externalInput := none, topDownIn := none
    resetIn := none, sequenceIdIn := none }

/-- The same step with the reset flag raised. -/
def inStepReset (v : List Int) : TMInputs := { inStep v with resetIn := some [1] }

/-- Test fixture: a factory whose backend reports a cell count different
from columnCount * cellsPerColumn of the region that asked for it. -/
def badFactory : TMRegion → Backend := fun _ =>
  { isExtended := false, numberOfCells := 5, activeCells := [], predictiveCells := [], internal := 0 }

/-- Test fixture: an uninitialized region with 4 columns of 2 cells. -/
def tmSmall : TMRegion := { TMRegion.mkDefault with columnCount := 4, cellsPerColumn := 2 }

/-- The L2Column state reached from the defaults by setting columnCount
to 10 (inputWidth re-derived to 10 * 16). -/
def l2cc10 : L2Column := { L2Column.mkDefault with columnCount := 10, inputWidth := 160 }

theorem length_zerosVec (n : Nat) : (zerosVec n).length = n := by
  simp [zerosVec]

theorem getD_zerosVec (n i : Nat) : (zerosVec n).getD i 0 = 0 := by
  unfold zerosVec
  induction n generalizing i with
  | zero => simp [List.getD]
  | succ m ih =>
    cases i with
    | zero => simp [List.replicate_succ]
    | succ j => simp [List.replicate_succ, ih]

theorem isBinary_zerosVec (n : Nat) : isBinary (zerosVec n) := by
  intro x hx
  left
  exact List.eq_of_mem_replicate hx

theorem isBinary_setOnes_zerosVec (n : Nat) (idxs : List Nat) :
    isBinary (setOnes (zerosVec n) idxs) := by
  intro x hx
  simp only [setOnes, List.mem_map, List.mem_range] at hx
  obtain ⟨i, _, rfl⟩ := hx
  by_cases h : i ∈ idxs
  · right
    simp only [if_pos h]
  · left
    rw [if_neg h]
    exact getD_zerosVec n i

theorem mulVec_eq_andVec :
    ∀ a b : List Int, isBinary a → isBinary b → mulVec a b = andVec a b
  | [], _, _, _ => rfl
  | _ :: _, [], _, _ => rfl
  | x :: xs, y :: ys, ha, hb => by
    have hx := ha x (List.mem_cons_self x xs)
    have hy := hb y (List.mem_cons_self y ys)
    have ih := mulVec_eq_andVec xs ys
      (fun z hz => ha z (List.mem_cons_of_mem x hz))
      (fun z hz => hb z (List.mem_cons_of_mem y hz))
    simp only [mulVec, andVec, List.zipWith_cons_cons] at ih ⊢
    rw [ih]
    rcases hx with rfl | rfl <;> rcases hy with rfl | rfl <;> norm_num

theorem isBinary_newActiveState (r : TMRegion) (tm1 : Backend) :
    isBinary (newActiveState r tm1) := by
  unfold newActiveState
  exact isBinary_setOnes_zerosVec _ _

theorem isBinary_newPrevPredicted (r : TMRegion) (tm1 : Backend) :
    isBinary (newPrevPredicted r tm1) := by
  unfold newPrevPredicted
  exact isBinary_setOnes_zerosVec _ _

theorem finishCompute_outputs (ops : BackendOps) (r : TMRegion) (outs : TMOutputs)
    (i : TMInputs) : (finishCompute ops r outs i).outputs = outs := by
  unfold finishCompute
  cases hri : i.resetIn with
  | none => rfl
  | some arr =>
    dsimp only
    split
    · split <;> rfl
    · rfl

theorem finishCompute_state_of_not_triggered (ops : BackendOps) (r : TMRegion)
    (outs : TMOutputs) (i : TMInputs) (h : resetTriggered i = false) :
    (finishCompute ops r outs i).state = r := by
  unfold finishCompute
  cases hri : i.resetIn with
  | none => rfl
  | some arr =>
    unfold resetTriggered at h
    rw [hri] at h
    dsimp only
    split
    · rename_i h1
      split
      · rename_i h2
        exfalso
        dsimp only at h
        rw [h1] at h
        simp at h h2
        exact absurd h h2
      · rfl
    · rfl

theorem finishCompute_of_triggered (ops : BackendOps) (r : TMRegion)
    (outs : TMOutputs) (i : TMInputs) (h : resetTriggered i = true) :
    finishCompute ops r outs i
      = { state := TMRegion.reset ops r, outputs := outs, error := none } := by
  unfold finishCompute
  cases hri : i.resetIn with
  | none =>
    unfold resetTriggered at h
    rw [hri] at h
    exact absurd h (by simp)
  | some arr =>
    unfold resetTriggered at h
    rw [hri] at h
    dsimp only at h
    simp only [Bool.and_eq_true, decide_eq_true_eq] at h
    dsimp only
    split
    · split
      · rfl
      · rename_i h2
        exact absurd h.2 h2
    · rename_i h1
      exact absurd h.1 h1

theorem finishCompute_assert (ops : BackendOps) (r : TMRegion) (outs : TMOutputs)
    (i : TMInputs) (arr : List Int) (hri : i.resetIn = some arr) (hlen : arr.length ≠ 1) :
    finishCompute ops r outs i
      = { state := r, outputs := outs, error := some "AssertionError" } := by
  unfold finishCompute
  rw [hri]
  simp [hlen]

theorem compute_of_some (ops : BackendOps) (r : TMRegion) (tm0 : Backend)
    (i : TMInputs) (o : TMOutputs) (htm : r.tm = some tm0) :
    TMRegion.compute ops r i o = computeWithTM ops r tm0 i o := by
  unfold TMRegion.compute
  rw [htm]

theorem computeWithTM_outputs (ops : BackendOps) (r : TMRegion) (tm0 : Backend)
    (i : TMInputs) (o : TMOutputs) :
    (computeWithTM ops r tm0 i o).outputs =
      { o with
        activeCells := newActiveState r (backendStep ops r tm0 i)
        predictiveCells := newPrevPredicted r (backendStep ops r tm0 i)
        predictedActiveCells :=
          mulVec (newActiveState r (backendStep ops r tm0 i)) r.previouslyPredictedCells
        bottomUpOut :=
          if r.defaultOutputType = "active" then
            newActiveState r (backendStep ops r tm0 i)
          else if r.defaultOutputType = "predictive" then
            newPrevPredicted r (backendStep ops r tm0 i)
          else if r.defaultOutputType = "predictedActiveCells" then
            mulVec (newActiveState r (backendStep ops r tm0 i)) r.previouslyPredictedCells
          else o.bottomUpOut } := by
  unfold computeWithTM
  by_cases h1 : r.defaultOutputType = "active"
  · simp [h1, finishCompute_outputs]
  · by_cases h2 : r.defaultOutputType = "predictive"
    · simp [h1, h2, finishCompute_outputs]
    · by_cases h3 : r.defaultOutputType = "predictedActiveCells"
      · simp [h1, h2, h3, finishCompute_outputs]
      · simp [h1, h2, h3]

theorem computeWithTM_state_of_not_triggered (ops : BackendOps) (r : TMRegion)
    (tm0 : Backend) (i : TMInputs) (o : TMOutputs) (h : resetTriggered i = false) :
    (computeWithTM ops r tm0 i o).state = stepState ops r tm0 i := by
  unfold computeWithTM
  by_cases h1 : r.defaultOutputType = "active"
  · simp [h1, finishCompute_state_of_not_triggered _ _ _ _ h]
  · by_cases h2 : r.defaultOutputType = "predictive"
    · simp [h1, h2, finishCompute_state_of_not_triggered _ _ _ _ h]
    · by_cases h3 : r.defaultOutputType = "predictedActiveCells"
      · simp [h1, h2, h3, finishCompute_state_of_not_triggered _ _ _ _ h]
      · simp [h1, h2, h3]

theorem computeWithTM_of_triggered (ops : BackendOps) (r : TMRegion)
    (tm0 : Backend) (i : TMInputs) (o : TMOutputs)
    (hval : validOutput r.defaultOutputType = true) (h : resetTriggered i = true) :
    (computeWithTM ops r tm0 i o).state = TMRegion.reset ops (stepState ops r tm0 i)
    ∧ (computeWithTM ops r tm0 i o).error = none := by
  unfold computeWithTM
  simp only [validOutput, Bool.or_eq_true, beq_iff_eq] at hval
  rcases hval with (h1 | h2) | h3
  · simp [h1, finishCompute_of_triggered _ _ _ _ h]
  · by_cases h1 : r.defaultOutputType = "active"
    · simp [h1, finishCompute_of_triggered _ _ _ _ h]
    · simp [h1, h2, finishCompute_of_triggered _ _ _ _ h]
  · by_cases h1 : r.defaultOutputType = "active"
    · simp [h1, finishCompute_of_triggered _ _ _ _ h]
    · by_cases h2 : r.defaultOutputType = "predictive"
      · simp [h1, h2, finishCompute_of_triggered _ _ _ _ h]
      · simp [h1, h2, h3, finishCompute_of_triggered _ _ _ _ h]

theorem computeWithTM_of_invalid (ops : BackendOps) (r : TMRegion)
    (tm0 : Backend) (i : TMInputs) (o : TMOutputs)
    (hval : validOutput r.defaultOutputType = false) :
    computeWithTM ops r tm0 i o =
      { state := stepState ops r tm0 i
        outputs :=
          { o with
            activeCells := newActiveState r (backendStep ops r tm0 i)
            predictiveCells := newPrevPredicted r (backendStep ops r tm0 i)
            predictedActiveCells :=
              mulVec (newActiveState r (backendStep ops r tm0 i)) r.previouslyPredictedCells }
        error := some ("Unknown outputType: " ++ r.defaultOutputType) } := by
  unfold computeWithTM
  simp only [validOutput, Bool.or_eq_false_iff, beq_eq_false_iff_ne, ne_eq] at hval
  simp [hval.1.1, hval.1.2, hval.2]

theorem computeWithTM_state_cases (ops : BackendOps) (r : TMRegion)
    (tm0 : Backend) (i : TMInputs) (o : TMOutputs) :
    (computeWithTM ops r tm0 i o).state = stepState ops r tm0 i
    ∨ (computeWithTM ops r tm0 i o).state = TMRegion.reset ops (stepState ops r tm0 i) := by
  cases htr : resetTriggered i with
  | false => exact Or.inl (computeWithTM_state_of_not_triggered _ _ _ _ _ htr)
  | true =>
    cases hval : validOutput r.defaultOutputType with
    | false =>
      left
      rw [computeWithTM_of_invalid _ _ _ _ _ hval]
    | true => exact Or.inr (computeWithTM_of_triggered _ _ _ _ _ hval htr).1

theorem compute_ok_cases (ops : BackendOps) (r : TMRegion) (i : TMInputs) (o : TMOutputs)
    (herr : (TMRegion.compute ops r i o).error = none) :
    ∃ tm0, r.tm = some tm0 ∧ validOutput r.defaultOutputType = true := by
  cases htm : r.tm with
  | none => simp [TMRegion.compute, htm] at herr
  | some tm0 =>
    refine ⟨tm0, rfl, ?_⟩
    by_contra hval
    rw [Bool.not_eq_true] at hval
    rw [compute_of_some _ _ _ _ _ htm, computeWithTM_of_invalid _ _ _ _ _ hval] at herr
    simp at herr

/-- C6 (amended): `initialize` on a region without a backend installs the
factory's backend and allocates `activeState` and `previouslyPredictedCells`
each sized to the backend's reported total cell count.  It performs no
comparison of that count against columnCount * cellsPerColumn: the source
contains no such check and no error path, so a mismatched count is accepted
silently. -/
theorem C6_initialize_allocates_backend_size (factory : TMRegion → Backend)
    (r : TMRegion) (h : r.tm = none) :
    ( TMRegion.initialize factory r).activeState = zerosVec (factory r).numberOfCells
    ∧ ( TMRegion.initialize factory r).previouslyPredictedCells
        = zerosVec (factory r).numberOfCells
    ∧ ( TMRegion.initialize factory r).tm = some (factory r) := by
  unfold TMRegion.initialize
  rw [h]
  exact ⟨rfl, rfl, rfl⟩

/-- Witness for C6: the amended theorem applied to a concrete uninitialized
region and factory. -/
theorem C6_initialize_allocates_backend_size_witness :
    ( TMRegion.initialize badFactory tmSmall).activeState
        = zerosVec (badFactory tmSmall).numberOfCells
    ∧ ( TMRegion.initialize badFactory tmSmall).previouslyPredictedCells
        = zerosVec (badFactory tmSmall).numberOfCells
    ∧ ( TMRegion.initialize badFactory tmSmall).tm = some (badFactory tmSmall) :=
  C6_initialize_allocates_backend_size badFactory tmSmall rfl

/-- C6 counterexample: a factory whose backend reports 5 cells while the
region is configured for 4 * 2 = 8.  `initialize` completes normally — the
backend is installed and both vectors are allocated at length 5 — instead of
failing with a configuration error as the claim asserts. -/
theorem C6_counterexample :
    ( TMRegion.initialize badFactory tmSmall).activeState.length = 5
    ∧ ( TMRegion.initialize badFactory tmSmall).previouslyPredictedCells.length = 5
    ∧ ( TMRegion.initialize badFactory tmSmall).tm = some (badFactory tmSmall)
    ∧ tmSmall.columnCount * tmSmall.cellsPerColumn = 8
    ∧ (5 : Nat) ≠ 8 := by decide

/-- C7: once a backend exists, `initialize` is a no-op that preserves the
whole adapter state — backend, activeState and previouslyPredictedCells
included. -/
theorem C7_initialize_idempotent (factory : TMRegion → Backend) (r : TMRegion)
    (b : Backend) (h : r.tm = some b) : TMRegion.initialize factory r = r := by
  unfold TMRegion.initialize
  rw [h]

/-- Witness for C7: a second initialize on an already-initialized region. -/
theorem C7_initialize_idempotent_witness :
    TMRegion.initialize badFactory rInit = rInit :=
  C7_initialize_idempotent badFactory rInit testBackend rfl

/-- C8: `reset` twice with no intervening compute equals `reset` once,
provided the backend's own reset is idempotent; on a backendless region it
is a no-op; on an initialized region it applies the backend reset and zeroes
previouslyPredictedCells. -/
theorem C8_reset_idempotent (ops : BackendOps) (r : TMRegion)
    (hidem : ∀ b, ops.reset (ops.reset b) = ops.reset b) :
    TMRegion.reset ops (TMRegion.reset ops r) = TMRegion.reset ops r
    ∧ (r.tm = none → TMRegion.reset ops r = r)
    ∧ (∀ b, r.tm = some b →
        (TMRegion.reset ops r).tm = some (ops.reset b)
        ∧ (TMRegion.reset ops r).previouslyPredictedCells
            = zerosVec r.previouslyPredictedCells.length) := by
  cases htm : r.tm with
  | none =>
    have h1 : TMRegion.reset ops r = r := by
      unfold TMRegion.reset
      rw [htm]
    refine ⟨?_, fun _ => h1, ?_⟩
    · rw [h1, h1]
    · intro b hb
      cases hb
  | some b =>
    have h1 : TMRegion.reset ops r
        = { r with tm := some (ops.reset b)
                   previouslyPredictedCells := zerosVec r.previouslyPredictedCells.length } := by
      unfold TMRegion.reset
      rw [htm]
    refine ⟨?_, ?_, ?_⟩
    · rw [h1]
      unfold TMRegion.reset
      dsimp only
      rw [hidem b]
      simp [length_zerosVec]
    · intro hn
      cases hn
    · intro b2 hb2
      injection hb2 with hb2
      subst hb2
      rw [h1]
      exact ⟨rfl, rfl⟩

/-- Witness for C8: double reset on the concrete initialized region with the
scripted backend, whose reset is idempotent. -/
theorem C8_reset_idempotent_witness :
    TMRegion.reset scriptOps (TMRegion.reset scriptOps rInit)
      = TMRegion.reset scriptOps rInit :=
  (C8_reset_idempotent scriptOps rInit (fun _ => rfl)).1

theorem computeWithTM_assert (ops : BackendOps) (r : TMRegion) (tm0 : Backend)
    (i : TMInputs) (o : TMOutputs) (arr : List Int)
    (hval : validOutput r.defaultOutputType = true)
    (hri : i.resetIn = some arr) (hlen : arr.length ≠ 1) :
    (computeWithTM ops r tm0 i o).error = some "AssertionError"
    ∧ (computeWithTM ops r tm0 i o).state = stepState ops r tm0 i := by
  unfold computeWithTM
  simp only [validOutput, Bool.or_eq_true, beq_iff_eq] at hval
  have hfin := fun outs => finishCompute_assert ops (stepState ops r tm0 i) outs i arr hri hlen
  rcases hval with (h1 | h2) | h3
  · simp [h1, hfin]
  · by_cases h1 : r.defaultOutputType = "active"
    · simp [h1, hfin]
    · simp [h1, h2, hfin]
  · by_cases h1 : r.defaultOutputType = "active"
    · simp [h1, hfin]
    · by_cases h2 : r.defaultOutputType = "predictive"
      · simp [h1, h2, hfin]
      · simp [h1, h2, h3, hfin]

/-- C1: over two consecutive compute steps with no reset triggered at the
first, the second step's predictedActiveCells output equals the elementwise
AND of its own activeCells output with the predictiveCells output the first
step produced: compute derives predictedActiveCells from
previouslyPredictedCells before overwriting it with the new predictive set. -/
theorem C1_predictedActive_and_previous_predictive
    (ops : BackendOps) (r : TMRegion) (tm0 : Backend)
    (i1 i2 : TMInputs) (o1 o2 : TMOutputs)
    (htm : r.tm = some tm0) (hnr : resetTriggered i1 = false) :
    (TMRegion.compute ops (TMRegion.compute ops r i1 o1).state i2 o2).outputs.predictedActiveCells
      = andVec
          (TMRegion.compute ops (TMRegion.compute ops r i1 o1).state i2 o2).outputs.activeCells
          (TMRegion.compute ops r i1 o1).outputs.predictiveCells := by
  rw [compute_of_some ops r tm0 i1 o1 htm]
  rw [computeWithTM_state_of_not_triggered ops r tm0 i1 o1 hnr]
  have hs : (stepState ops r tm0 i1).tm = some (backendStep ops r tm0 i1) := rfl
  rw [compute_of_some ops _ _ i2 o2 hs]
  rw [computeWithTM_outputs ops r tm0 i1 o1]
  rw [computeWithTM_outputs ops (stepState ops r tm0 i1) (backendStep ops r tm0 i1) i2 o2]
  dsimp only
  have hpp : (stepState ops r tm0 i1).previouslyPredictedCells
      = newPrevPredicted r (backendStep ops r tm0 i1) := rfl
  rw [hpp]
  exact mulVec_eq_andVec _ _ (isBinary_newActiveState _ _) (isBinary_newPrevPredicted _ _)

/-- Witness for C1: the two-step law at the concrete scripted backend. -/
theorem C1_predictedActive_and_previous_predictive_witness :
    (TMRegion.compute scriptOps (TMRegion.compute scriptOps rInit (inStep [1, 0, 1, 0]) oZeros).state
        (inStep [1, 0, 1, 0]) oZeros).outputs.predictedActiveCells
      = andVec
          (TMRegion.compute scriptOps
              (TMRegion.compute scriptOps rInit (inStep [1, 0, 1, 0]) oZeros).state
              (inStep [1, 0, 1, 0]) oZeros).outputs.activeCells
          (TMRegion.compute scriptOps rInit (inStep [1, 0, 1, 0]) oZeros).outputs.predictiveCells :=
  C1_predictedActive_and_previous_predictive scriptOps rInit testBackend
    (inStep [1, 0, 1, 0]) (inStep [1, 0, 1, 0]) oZeros oZeros rfl rfl

/-- C2: the reset flag is handled only after every output is written — the
outputs of a step do not depend on the flag at all; when the flag triggers
and the step completes, the final state is exactly `reset` applied to the
state the same step would leave without the flag; and the step after such a
reset step computes predictedActiveCells as the AND of its activeCells with
the region's previouslyPredictedCells, which the reset left as the zero
vector, so the pre-reset predictive set cannot leak. -/
theorem C2_reset_after_outputs (ops : BackendOps) (r : TMRegion) (i : TMInputs) (o : TMOutputs) :
    ((TMRegion.compute ops r i o).outputs = (TMRegion.compute ops r (stripReset i) o).outputs)
    ∧ (resetTriggered i = true → (TMRegion.compute ops r i o).error = none →
        (TMRegion.compute ops r i o).state
          = TMRegion.reset ops ((TMRegion.compute ops r (stripReset i) o).state))
    ∧ (∀ i2 o2, resetTriggered i = true → (TMRegion.compute ops r i o).error = none →
        (TMRegion.compute ops (TMRegion.compute ops r i o).state i2 o2).outputs.predictedActiveCells
          = andVec
              (TMRegion.compute ops (TMRegion.compute ops r i o).state i2 o2).outputs.activeCells
              (TMRegion.compute ops r i o).state.previouslyPredictedCells
        ∧ (TMRegion.compute ops r i o).state.previouslyPredictedCells
            = zerosVec (TMRegion.compute ops r i o).state.previouslyPredictedCells.length) := by
  refine ⟨?_, ?_, ?_⟩
  · cases htm : r.tm with
    | none => simp [TMRegion.compute, htm]
    | some tm0 =>
      rw [compute_of_some _ _ _ _ _ htm, compute_of_some _ _ _ _ _ htm]
      rw [computeWithTM_outputs, computeWithTM_outputs]
      rfl
  · intro htrig herr
    obtain ⟨tm0, htm, hval⟩ := compute_ok_cases ops r i o herr
    rw [compute_of_some _ _ _ _ _ htm] at herr ⊢
    rw [compute_of_some _ _ _ _ _ htm]
    rw [(computeWithTM_of_triggered ops r tm0 i o hval htrig).1]
    rw [computeWithTM_state_of_not_triggered ops r tm0 (stripReset i) o rfl]
    rfl
  · intro i2 o2 htrig herr
    obtain ⟨tm0, htm, hval⟩ := compute_ok_cases ops r i o herr
    have hstate : (TMRegion.compute ops r i o).state
        = TMRegion.reset ops (stepState ops r tm0 i) := by
      rw [compute_of_some _ _ _ _ _ htm]
      exact (computeWithTM_of_triggered ops r tm0 i o hval htrig).1
    have hpp : (TMRegion.compute ops r i o).state.previouslyPredictedCells
        = zerosVec (newPrevPredicted r (backendStep ops r tm0 i)).length := by
      rw [hstate]
      rfl
    have htm2 : (TMRegion.compute ops r i o).state.tm
        = some (ops.reset (backendStep ops r tm0 i)) := by
      rw [hstate]
      rfl
    constructor
    · rw [compute_of_some ops _ _ i2 o2 htm2]
      rw [computeWithTM_outputs]
      dsimp only
      refine mulVec_eq_andVec _ _ (isBinary_newActiveState _ _) ?_
      rw [hpp]
      exact isBinary_zerosVec _
    · rw [hpp, length_zerosVec]

/-- Witness for C2: a concrete step carrying the reset flag, followed by a
concrete next step. -/
theorem C2_reset_after_outputs_witness :
    (TMRegion.compute scriptOps rInit (inStepReset [1, 0, 1, 0]) oZeros).state
      = TMRegion.reset scriptOps
          ((TMRegion.compute scriptOps rInit (stripReset (inStepReset [1, 0, 1, 0])) oZeros).state)
    ∧ (TMRegion.compute scriptOps rInit
          (inStepReset [1, 0, 1, 0]) oZeros).state.previouslyPredictedCells
        = zerosVec (TMRegion.compute scriptOps rInit
            (inStepReset [1, 0, 1, 0]) oZeros).state.previouslyPredictedCells.length :=
  ⟨(C2_reset_after_outputs scriptOps rInit (inStepReset [1, 0, 1, 0]) oZeros).2.1
      (by decide) (by decide),
   ((C2_reset_after_outputs scriptOps rInit (inStepReset [1, 0, 1, 0]) oZeros).2.2
      (inStep [1, 0, 1, 0]) oZeros (by decide) (by decide)).2⟩

/-- C9: a present resetIn array whose length is not one makes compute raise
the assertion, and no reset is performed: the final state equals that of the
same step without a reset flag (backend reset not invoked,
previouslyPredictedCells not zeroed). -/
theorem C9_malformed_resetIn_asserts (ops : BackendOps) (r : TMRegion) (tm0 : Backend)
    (i : TMInputs) (o : TMOutputs) (arr : List Int)
    (htm : r.tm = some tm0) (hval : validOutput r.defaultOutputType = true)
    (hri : i.resetIn = some arr) (hlen : arr.length ≠ 1) :
    (TMRegion.compute ops r i o).error = some "AssertionError"
    ∧ (TMRegion.compute ops r i o).state = (TMRegion.compute ops r (stripReset i) o).state := by
  rw [compute_of_some _ _ _ _ _ htm, compute_of_some _ _ _ _ _ htm]
  have h := computeWithTM_assert ops r tm0 i o arr hval hri hlen
  refine ⟨h.1, ?_⟩
  rw [h.2, computeWithTM_state_of_not_triggered ops r tm0 (stripReset i) o rfl]
  rfl

/-- Witness for C9: a resetIn array of length 2 on a concrete region. -/
theorem C9_malformed_resetIn_asserts_witness :
    (TMRegion.compute scriptOps rInit
        { inStep [1, 0, 1, 0] with resetIn := some [1, 1] } oZeros).error
      = some "AssertionError"
    ∧ (TMRegion.compute scriptOps rInit
          { inStep [1, 0, 1, 0] with resetIn := some [1, 1] } oZeros).state
        = (TMRegion.compute scriptOps rInit
            (stripReset { inStep [1, 0, 1, 0] with resetIn := some [1, 1] }) oZeros).state :=
  C9_malformed_resetIn_asserts scriptOps rInit testBackend
    { inStep [1, 0, 1, 0] with resetIn := some [1, 1] } oZeros [1, 1]
    rfl (by decide) rfl (by decide)

/-- C10: a compute call that completes normally leaves every configuration
field of the adapter unchanged and does not install or drop the backend
slot; only activeState, previouslyPredictedCells, the backend contents and
the output buffers change. -/
theorem C10_compute_frame (ops : BackendOps) (r : TMRegion) (i : TMInputs) (o : TMOutputs)
    (herr : (TMRegion.compute ops r i o).error = none) :
    sameConfig (TMRegion.compute ops r i o).state r
    ∧ ((TMRegion.compute ops r i o).state.tm).isSome = (r.tm).isSome := by
  obtain ⟨tm0, htm, _⟩ := compute_ok_cases ops r i o herr
  rw [compute_of_some _ _ _ _ _ htm]
  constructor
  · rcases computeWithTM_state_cases ops r tm0 i o with hs | hs <;> rw [hs] <;>
      simp [sameConfig, TMRegion.reset, stepState]
  · rcases computeWithTM_state_cases ops r tm0 i o with hs | hs <;> rw [hs] <;>
      simp [TMRegion.reset, stepState, htm]

/-- Witness for C10: the frame condition at a concrete completed step. -/
theorem C10_compute_frame_witness :
    sameConfig (TMRegion.compute scriptOps rInit (inStep [1, 0, 1, 0]) oZeros).state rInit
    ∧ ((TMRegion.compute scriptOps rInit (inStep [1, 0, 1, 0]) oZeros).state.tm).isSome
        = (rInit.tm).isSome :=
  C10_compute_frame scriptOps rInit (inStep [1, 0, 1, 0]) oZeros (by decide)

theorem getParamNat_inputWidth_none (r : TMRegion) :
    TMRegion.getParamNat r "inputWidth" = none := rfl

/-- C3 counterexample: the conversion compares entries with 1, not with 0.
The entry 2 at index 1 is nonzero yet is excluded from the active-column
set, and a full compute through the echoing backend confirms index 1 is not
treated as active. -/
theorem C3_counterexample :
    (2 : Int) ≠ 0
    ∧ whereEq1 [0, 2, 1] = [2]
    ∧ (TMRegion.compute recOps rRec (inStep [0, 2, 1]) oZeros3).outputs.activeCells
        = [0, 0, 1] := by decide

/-- C3 (amended): compute converts each dense input with `whereEq1`, which
selects exactly the indices whose value equals 1 — not the nonzero indices;
an element holding a nonzero value other than 1 is excluded. -/
theorem C3_conversion_selects_equal_one (v : List Int) (i : Nat) :
    i ∈ whereEq1 v ↔ i < v.length ∧ v.getD i 0 = 1 := by
  simp only [whereEq1, List.mem_filter, List.mem_range, beq_iff_eq]

/-- C4 counterexample: an invalid defaultOutputType makes the call raise,
but the three named output vectors have already been overwritten by then
(the claim asserts no output vector is mutated). -/
theorem C4_counterexample :
    ((TMRegion.compute scriptOps rBadOut (inStep [1, 0, 1, 0]) oZeros).error).isSome = true
    ∧ (TMRegion.compute scriptOps rBadOut (inStep [1, 0, 1, 0]) oZeros).outputs.activeCells
        ≠ oZeros.activeCells
    ∧ (TMRegion.compute scriptOps rBadOut (inStep [1, 0, 1, 0]) oZeros).outputs.predictiveCells
        ≠ oZeros.predictiveCells := by decide

/-- C4 (amended): with a defaultOutputType outside the three valid
selectors, compute raises the unknown-output-type error and the
default-output alias bottomUpOut is left unmutated, but activeCells,
predictiveCells and predictedActiveCells have already been written (and the
adapter state updated) when the error is raised. -/
theorem C4_invalid_selector_raises_after_writes
    (ops : BackendOps) (r : TMRegion) (tm0 : Backend) (i : TMInputs) (o : TMOutputs)
    (htm : r.tm = some tm0) (hval : validOutput r.defaultOutputType = false) :
    (TMRegion.compute ops r i o).error
        = some ("Unknown outputType: " ++ r.defaultOutputType)
    ∧ (TMRegion.compute ops r i o).outputs.bottomUpOut = o.bottomUpOut
    ∧ (TMRegion.compute ops r i o).outputs.activeCells
        = (TMRegion.compute ops r i o).state.activeState
    ∧ (TMRegion.compute ops r i o).outputs.predictiveCells
        = (TMRegion.compute ops r i o).state.previouslyPredictedCells
    ∧ (TMRegion.compute ops r i o).outputs.predictedActiveCells
        = mulVec (TMRegion.compute ops r i o).state.activeState r.previouslyPredictedCells := by
  rw [compute_of_some _ _ _ _ _ htm, computeWithTM_of_invalid _ _ _ _ _ hval]
  exact ⟨rfl, rfl, rfl, rfl, rfl⟩

/-- Witness for C4 (amended): the concrete region with selector "bogus". -/
theorem C4_invalid_selector_raises_after_writes_witness :
    (TMRegion.compute scriptOps rBadOut (inStep [1, 0, 1, 0]) oZeros).error
        = some ("Unknown outputType: " ++ rBadOut.defaultOutputType)
    ∧ (TMRegion.compute scriptOps rBadOut (inStep [1, 0, 1, 0]) oZeros).outputs.bottomUpOut
        = oZeros.bottomUpOut
    ∧ (TMRegion.compute scriptOps rBadOut (inStep [1, 0, 1, 0]) oZeros).outputs.activeCells
        = (TMRegion.compute scriptOps rBadOut (inStep [1, 0, 1, 0]) oZeros).state.activeState
    ∧ (TMRegion.compute scriptOps rBadOut (inStep [1, 0, 1, 0]) oZeros).outputs.predictiveCells
        = (TMRegion.compute scriptOps rBadOut
            (inStep [1, 0, 1, 0]) oZeros).state.previouslyPredictedCells
    ∧ (TMRegion.compute scriptOps rBadOut (inStep [1, 0, 1, 0]) oZeros).outputs.predictedActiveCells
        = mulVec (TMRegion.compute scriptOps rBadOut (inStep [1, 0, 1, 0]) oZeros).state.activeState
            rBadOut.previouslyPredictedCells :=
  C4_invalid_selector_raises_after_writes scriptOps rBadOut testBackend
    (inStep [1, 0, 1, 0]) oZeros rfl (by decide)

/-- C5 counterexample: TMRegion maintains no inputWidth at all.  After
construction there is no inputWidth attribute to read; a successful set of
columnCount changes only columnCount and re-derives nothing; and setting
inputWidth itself is rejected as an unknown parameter. -/
theorem C5_counterexample :
    TMRegion.getParamNat TMRegion.mkDefault "inputWidth" = none
    ∧ TMRegion.setParameter TMRegion.mkDefault "columnCount" (PVal.num 10)
        = Except.ok { TMRegion.mkDefault with columnCount := 10 }
    ∧ TMRegion.setParameter TMRegion.mkDefault "inputWidth" (PVal.num 320)
        = Except.error "Unknown parameter: inputWidth" :=
  ⟨rfl, rfl, rfl⟩

/-- C5 (amended): the invariant inputWidth = columnCount * cellsPerColumn
holds for L2Column — established at construction and re-derived by every
successful setParameter — whereas TMRegion never defines inputWidth: after
any successful TMRegion.setParameter the attribute still does not exist. -/
theorem C5_inputWidth_invariant :
    (∀ (cc cpc act : Nat) (ip cp : Rat) (mt mx : Nat) (pinc pdec psd : Rat)
        (sd : Nat) (dout : String),
        (L2Column.init cc cpc act ip cp mt mx pinc pdec psd sd dout).inputWidth = cc * cpc)
    ∧ (∀ (r : L2Column) (name : String) (v : PVal) (r2 : L2Column),
        L2Column.setParameter r name v = Except.ok r2 →
        r2.inputWidth = r2.columnCount * r2.cellsPerColumn)
    ∧ (∀ (r : TMRegion) (name : String) (v : PVal) (r2 : TMRegion),
        TMRegion.setParameter r name v = Except.ok r2 →
        TMRegion.getParamNat r2 "inputWidth" = none) := by
  refine ⟨fun _ _ _ _ _ _ _ _ _ _ _ _ => rfl, ?_, ?_⟩
  · intro r name v r2 h
    unfold L2Column.setParameter at h
    cases hs : L2Column.setAttr r name v with
    | error e =>
      rw [hs] at h
      cases h
    | ok r1 =>
      rw [hs] at h
      dsimp only at h
      injection h with h
      subst h
      rfl
  · intro r name v r2 _
    exact getParamNat_inputWidth_none r2

/-- Witness for C5 (amended): setting columnCount to 10 on the default
L2Column re-derives inputWidth to 160, while on the default TMRegion a
successful set of columnCount still leaves no inputWidth to read. -/
theorem C5_inputWidth_invariant_witness :
    l2cc10.inputWidth = l2cc10.columnCount * l2cc10.cellsPerColumn
    ∧ TMRegion.getParamNat { TMRegion.mkDefault with columnCount := 10 } "inputWidth" = none :=
  ⟨C5_inputWidth_invariant.2.1 L2Column.mkDefault "columnCount" (PVal.num 10) l2cc10 rfl,
   C5_inputWidth_invariant.2.2 TMRegion.mkDefault "columnCount" (PVal.num 10)
     { TMRegion.mkDefault with columnCount := 10 } rfl⟩

/-- Sanity scenario from the two-step example in the specification: columns
{0, 2} active; the backend reports active cells {0, 3} and predictive cells
{1, 4} at step one, then active cells {1, 4} at step two.  Step one yields
activeCells [1,0,0,1,0,0,0,0] and an all-zero predictedActiveCells; step two
yields predictedActiveCells [0,1,0,0,1,0,0,0]. -/
theorem twoStep_scenario :
    (TMRegion.compute scriptOps rInit (inStep [1, 0, 1, 0]) oZeros).outputs.activeCells
        = [1, 0, 0, 1, 0, 0, 0, 0]
    ∧ (TMRegion.compute scriptOps rInit (inStep [1, 0, 1, 0]) oZeros).outputs.predictedActiveCells
        = zerosVec 8
    ∧ (TMRegion.compute scriptOps
          (TMRegion.compute scriptOps rInit (inStep [1, 0, 1, 0]) oZeros).state
          (inStep [1, 0, 1, 0]) oZeros).outputs.predictedActiveCells
        = [0, 1, 0, 0, 1, 0, 0, 0] := by decide
